import Mathlib

set_option maxRecDepth 100000

/-!
Verification of the awbw-notifications service (`src/main.rs`).

The development shallowly embeds the pure core of the program — the
fingerprint extractor, signature computation, discord message formatting,
change decision — and models the effectful orchestration (`run`,
`gcs_read_state`, `gcs_write_state`, `login_awbw`, `post_discord`) as pure
functions over an environment describing the outcomes of the external HTTP
calls, producing an explicit event trace of the durable-store writes and
webhook notifications.

Machine integers (`u32`) are modelled as `Nat`, with an explicit `% 2^32`
where the source can overflow.  SHA-256 is implemented concretely
(FIPS 180-4) over byte lists so that signatures evaluate.
-/

namespace AWBW

/-! ## SHA-256 (FIPS 180-4), over byte lists, words as `Nat < 2^32` -/

def w32 : Nat := 4294967296

def add32 (a b : Nat) : Nat := (a + b) % w32

def rotr32 (n x : Nat) : Nat := (x >>> n) ||| ((x % (2 ^ n)) <<< (32 - n))

def shr32 (n x : Nat) : Nat := x >>> n

def xor3 (a b c : Nat) : Nat := Nat.xor (Nat.xor a b) c

def not32 (x : Nat) : Nat := Nat.xor x (w32 - 1)

def ch32 (x y z : Nat) : Nat := Nat.xor (Nat.land x y) (Nat.land (not32 x) z)

def maj32 (x y z : Nat) : Nat :=
  xor3 (Nat.land x y) (Nat.land x z) (Nat.land y z)

def bigSigma0 (x : Nat) : Nat := xor3 (rotr32 2 x) (rotr32 13 x) (rotr32 22 x)

def bigSigma1 (x : Nat) : Nat := xor3 (rotr32 6 x) (rotr32 11 x) (rotr32 25 x)

def smallSigma0 (x : Nat) : Nat := xor3 (rotr32 7 x) (rotr32 18 x) (shr32 3 x)

def smallSigma1 (x : Nat) : Nat := xor3 (rotr32 17 x) (rotr32 19 x) (shr32 10 x)

def shaK : List Nat :=
  [1116352408, 1899447441, 3049323471, 3921009573, 961987163,
   1508970993, 2453635748, 2870763221, 3624381080, 310598401,
   607225278, 1426881987, 1925078388, 2162078206, 2614888103,
   3248222580, 3835390401, 4022224774, 264347078, 604807628,
   770255983, 1249150122, 1555081692, 1996064986, 2554220882,
   2821834349, 2952996808, 3210313671, 3336571891, 3584528711,
   113926993, 338241895, 666307205, 773529912, 1294757372,
   1396182291, 1695183700, 1986661051, 2177026350, 2456956037,
   2730485921, 2820302411, 3259730800, 3345764771, 3516065817,
   3600352804, 4094571909, 275423344, 430227734, 506948616,
   659060556, 883997877, 958139571, 1322822218, 1537002063,
   1747873779, 1955562222, 2024104815, 2227730452, 2361852424,
   2428436474, 2756734187, 3204031479, 3329325298]

/-- The eight working variables of the SHA-256 compression function. -/
structure Hash8 where
  a : Nat
  b : Nat
  c : Nat
  d : Nat
  e : Nat
  f : Nat
  g : Nat
  h : Nat

deriving Repr, DecidableEq

def shaH0 : Hash8 :=
  ⟨1779033703, 3144134277, 1013904242, 2773480762,
   1359893119, 2600822924, 528734635, 1541459225⟩

/-- Big-endian 64-bit byte encoding of a length in bits. -/
def be64 (n : Nat) : List Nat :=
  [(n >>> 56) % 256, (n >>> 48) % 256, (n >>> 40) % 256, (n >>> 32) % 256,
   (n >>> 24) % 256, (n >>> 16) % 256, (n >>> 8) % 256, n % 256]

/-- SHA-256 padding: append 0x80, zeros to 56 mod 64, then the bit length. -/
def shaPad (msg : List Nat) : List Nat :=
  let len := msg.length
  let zeros := (64 - ((len + 9) % 64)) % 64
  msg ++ (128 :: List.replicate zeros 0) ++ be64 (8 * len)

/-- Group a byte list into big-endian 32-bit words (length a multiple of 4). -/
def bytesToWords : List Nat → List Nat
  | b0 :: b1 :: b2 :: b3 :: rest =>
      (((b0 * 256 + b1) * 256 + b2) * 256 + b3) :: bytesToWords rest
  | _ => []

/-- Split into blocks of 16 words (fuel-based so the kernel can evaluate it). -/
def toBlocksFuel : Nat → List Nat → List (List Nat)
  | 0, _ => []
  | _, [] => []
  | n + 1, ws => ws.take 16 :: toBlocksFuel n (ws.drop 16)

def toBlocks (ws : List Nat) : List (List Nat) := toBlocksFuel ws.length ws

/-- Extend the 16 block words to the 64-entry message schedule. -/
def extendWords (w : List Nat) : Nat → List Nat
  | 0 => w
  | n + 1 =>
      let t := w.length
      let nw := add32 (add32 (smallSigma1 (w.getD (t - 2) 0)) (w.getD (t - 7) 0))
                      (add32 (smallSigma0 (w.getD (t - 15) 0)) (w.getD (t - 16) 0))
      extendWords (w ++ [nw]) n

def roundFn (s : Hash8) (k : Nat) (w : Nat) : Hash8 :=
  let t1 := add32 s.h (add32 (bigSigma1 s.e) (add32 (ch32 s.e s.f s.g) (add32 k w)))
  let t2 := add32 (bigSigma0 s.a) (maj32 s.a s.b s.c)
  ⟨add32 t1 t2, s.a, s.b, s.c, add32 s.d t1, s.e, s.f, s.g⟩

def addH (x y : Hash8) : Hash8 :=
  ⟨add32 x.a y.a, add32 x.b y.b, add32 x.c y.c, add32 x.d y.d,
   add32 x.e y.e, add32 x.f y.f, add32 x.g y.g, add32 x.h y.h⟩

/-- Compress one 16-word block into the running hash state. -/
def compressBlock (h : Hash8) (block : List Nat) : Hash8 :=
  let ws := extendWords block 48
  let final := (shaK.zip ws).foldl (fun s kw => roundFn s kw.1 kw.2) h
  addH h final

/-- SHA-256 digest of a byte list, as the eight final hash words. -/
def sha256Words (msg : List Nat) : Hash8 :=
  (toBlocks (bytesToWords (shaPad msg))).foldl compressBlock shaH0

def hexDigitChar (n : Nat) : Char :=
  match n with
  | 0 => '0' | 1 => '1' | 2 => '2' | 3 => '3' | 4 => '4'
  | 5 => '5' | 6 => '6' | 7 => '7' | 8 => '8' | 9 => '9'
  | 10 => 'a' | 11 => 'b' | 12 => 'c' | 13 => 'd' | 14 => 'e'
  | _ => 'f'

/-- Lowercase hex of one 32-bit word, 8 nibbles, most significant first. -/
def wordHex (x : Nat) : List Char :=
  [hexDigitChar ((x >>> 28) % 16), hexDigitChar ((x >>> 24) % 16),
   hexDigitChar ((x >>> 20) % 16), hexDigitChar ((x >>> 16) % 16),
   hexDigitChar ((x >>> 12) % 16), hexDigitChar ((x >>> 8) % 16),
   hexDigitChar ((x >>> 4) % 16), hexDigitChar (x % 16)]

/-- Lowercase-hex SHA-256 of a byte list, mirroring `format!("{:x}", h.finalize())`. -/
def sha256Hex (msg : List Nat) : String :=
  let d := sha256Words msg
  String.mk (wordHex d.a ++ wordHex d.b ++ wordHex d.c ++ wordHex d.d ++
             wordHex d.e ++ wordHex d.f ++ wordHex d.g ++ wordHex d.h)

/-- UTF-8 encoding of one code point. -/
def utf8Char (n : Nat) : List Nat :=
  if n < 128 then [n]
  else if n < 2048 then [192 + n / 64, 128 + n % 64]
  else if n < 65536 then [224 + n / 4096, 128 + (n / 64) % 64, 128 + n % 64]
  else [240 + n / 262144, 128 + (n / 4096) % 64, 128 + (n / 64) % 64, 128 + n % 64]

/-- UTF-8 bytes of a string, mirroring Rust's `str::as_bytes`. -/
def utf8 (s : String) : List Nat :=
  (s.data.map (fun c => utf8Char c.toNat)).flatten

/-- Match a literal prefix; return the remainder on success. -/
def matchLit : List Char → List Char → Option (List Char)
  | [], s => some s
  | _, [] => none
  | l :: ls, c :: cs => if c = l then matchLit ls cs else none

/-- Does `p` occur as a substring (Rust `str::contains`)? -/
def containsSubList (p : List Char) : List Char → Bool
  | [] => (matchLit p []).isSome
  | c :: rest => (matchLit p (c :: rest)).isSome || containsSubList p rest

def containsSub (s pat : String) : Bool := containsSubList pat.data s.data

/-! ## The three regexes of `extract_turn_info`, as character scanners

`\s` is the ASCII whitespace class, `\d` the ASCII digits; the three
patterns are deterministic (each greedy sub-match is forced by the next
literal), so a backtracking-free scanner implements the regex crate's
leftmost-match semantics exactly. -/

def isWsChar (c : Char) : Bool :=
  c = ' ' || c = '\t' || c = '\n' || c = '\x0b' || c = '\x0c' || c = '\r'

def isDigitChar (c : Char) : Bool := '0' ≤ c && c ≤ '9'

def skipWs : List Char → List Char
  | [] => []
  | c :: cs => if isWsChar c then skipWs cs else c :: cs

/-- Consume a maximal digit run, returning (value, digit count, rest). -/
def takeDigits (acc k : Nat) : List Char → Nat × Nat × List Char
  | [] => (acc, k, [])
  | c :: cs =>
      if isDigitChar c then takeDigits (acc * 10 + (c.toNat - 48)) (k + 1) cs
      else (acc, k, c :: cs)

/-- Try `lit` `\s*` `\(` `(\d+)` `\)` at the head of `s`. -/
def matchCountAt (lit s : List Char) : Option Nat :=
  match matchLit lit s with
  | none => none
  | some s1 =>
      match skipWs s1 with
      | '(' :: s3 =>
          match takeDigits 0 0 s3 with
          | (v, k, s4) =>
              if k = 0 then none
              else match s4 with
                   | ')' :: _ => some v
                   | _ => none
      | _ => none

/-- Leftmost match of the count pattern anywhere in `s`. -/
def findCountCapture (lit : List Char) : List Char → Option Nat
  | [] => matchCountAt lit []
  | c :: rest =>
      match matchCountAt lit (c :: rest) with
      | some v => some v
      | none => findCountCapture lit rest

/-- `regex_capture_u32` for a count pattern: leftmost capture, then
`parse::<u32>` (fails on overflow). -/
def regex_capture_u32 (lit : List Char) (s : List Char) : Option Nat :=
  match findCountCapture lit s with
  | some v => if v < w32 then some v else none
  | none => none

/-- Try `href\s*=\s*["']?game\.php\?games_id=(\d+)` at the head of `s`;
return the captured value and the remainder after the match. -/
def matchGameIdAt (s : List Char) : Option (Nat × List Char) :=
  match matchLit ("href".data) s with
  | none => none
  | some s1 =>
      match skipWs s1 with
      | '=' :: s3 =>
          let s4 := skipWs s3
          let s5 := match s4 with
                    | '"' :: r => r
                    | c :: r => if c = Char.ofNat 39 then r else c :: r
                    | r => r
          match matchLit ("game.php?games_id=".data) s5 with
          | none => none
          | some s6 =>
              match takeDigits 0 0 s6 with
              | (v, k, s7) => if k = 0 then none else some (v, s7)
      | _ => none

/-- `captures_iter` over the game-id pattern: non-overlapping matches left
to right, pushing each captured id that parses as `u32`. -/
def collectIdsFuel : Nat → List Char → List Nat
  | 0, _ => []
  | _ + 1, [] => []
  | n + 1, c :: rest =>
      match matchGameIdAt (c :: rest) with
      | some (v, s7) => (if v < w32 then [v] else []) ++ collectIdsFuel n s7
      | none => collectIdsFuel n rest

def collectIds (s : List Char) : List Nat := collectIdsFuel s.length s

/-- Rust `Vec::dedup`: drop consecutive duplicates. -/
def dedupConsec : List Nat → List Nat
  | [] => []
  | [a] => [a]
  | a :: b :: rest =>
      if a = b then dedupConsec (b :: rest) else a :: dedupConsec (b :: rest)

/-! ## The pure core of `main.rs` -/

def AWBW_URL : String := "https://awbw.amarriner.com/yourgames.php?yourTurn=1"

def BASE_URL : String := "https://awbw.amarriner.com/"

def loginMarker : String := "You must be logged in"

def litYourTurn : List Char := "Your Turn Games".data

def litWaiting : List Char := "Your Games Waiting to Start ".data

/-- `extract_turn_info`: the two label counts (each defaulting to 0), summed
as `u32`; all game-id link captures, sorted and deduplicated. -/
def extract_turn_info (html : String) : Nat × List Nat :=
  let turn_count := (regex_capture_u32 litYourTurn html.data).getD 0
  let start_count := (regex_capture_u32 litWaiting html.data).getD 0
  let count := (turn_count + start_count) % w32
  let ids := dedupConsec (List.insertionSort (· ≤ ·) (collectIds html.data))
  (count, ids)

/-- `make_signature`: lowercase-hex SHA-256 of the comma join of the ids if
non-empty, else of `"count:{count}"`. -/
def make_signature (count : Nat) (ids : List Nat) : String :=
  let source :=
    if !ids.isEmpty then String.intercalate "," (ids.map Nat.repr)
    else "count:" ++ Nat.repr count
  sha256Hex (utf8 source)

/-- `build_discord_message`. -/
def build_discord_message (count : Nat) (ids : List Nat) : String :=
  if count = 0 && ids.length = 0 then "✅ **AWBW** → No pending turns"
  else
    let links := String.intercalate " • "
      ((ids.take 5).map (fun id =>
        "[" ++ Nat.repr id ++ "](" ++ BASE_URL ++ "game.php?games_id=" ++ Nat.repr id ++ ")"))
    let s := "🎮 **AWBW (" ++ Nat.repr count ++ ")** → [All](" ++ AWBW_URL ++ ")"
    let s := if !links.isEmpty then s ++ " • " ++ links else s
    if ids.length > 5 then s ++ " • +" ++ Nat.repr (ids.length - 5) ++ " more" else s

/-- The change decision of `run` (line 101):
`!state.sig.is_empty() && state.sig != sig`. -/
def changed_of (storedSig newSig : String) : Bool :=
  !storedSig.isEmpty && !(storedSig == newSig)

/-- Persisted observation state (`struct State`, `#[derive(Default)]`). -/
structure State where
  sig : String
  count : Option Nat
  cookies_json : Option String

deriving Repr, DecidableEq

def defaultState : State := ⟨"", none, none⟩

/-- `struct RunResponse`. -/
structure RunResponse where
  ok : Bool
  changed : Bool
  count : Nat
  logged_in : Bool
  posted : Bool

deriving Repr, DecidableEq

/-- The failure cases `run` can surface (all `anyhow::Error` in the source,
distinguished here by provenance). -/
inductive RunError where
  | envMissing (name : String)
  | transport
  | authFailed
  | gcsReadFailed (status : Nat)
  | gcsParseFailed
  | gcsWriteFailed (status : Nat)
  | webhookFailed (status : Nat)
  | cookieErr

deriving Repr, DecidableEq

deriving instance DecidableEq for Except

/-- Outcome of one outbound HTTP call: transport-level failure, or a reply
with a status code and a body. -/
inductive HttpOutcome where
  | down
  | reply (status : Nat) (body : String)

deriving Repr, DecidableEq

/-- `reqwest::StatusCode::is_success`. -/
def is_success (status : Nat) : Bool := 200 ≤ status && status < 300

/-- Observable actions of a run against the outside world that the claims
speak about: durable-store write attempts and webhook notification attempts. -/
inductive Event where
  | writeState (st : State)
  | notifyCall (msg : String)

deriving Repr, DecidableEq

def Event.isWrite : Event → Bool
  | .writeState _ => true
  | .notifyCall _ => false

/-- The environment of one run: configuration values and the outcome of
each external call, in program order. -/
structure Env where
  bucket : Option String
  stateObject : Option String
  username : Option String
  password : Option String
  webhookUrl : Option String
  parseState : String → Option State
  gcsRead : HttpOutcome
  fetch1 : HttpOutcome
  loginGet : HttpOutcome
  loginPost : HttpOutcome
  fetch2 : HttpOutcome
  cookiesOut : Except Unit String
  gcsWrite : HttpOutcome
  webhook : HttpOutcome

/-- `gcs_read_state` (lines 252–274): 404 is a cold start yielding the
default state; any other non-2xx status, transport failure, or unparsable
body is an error.  `parse` stands for `serde_json::from_str::<State>`. -/
def gcs_read_state (parse : String → Option State) : HttpOutcome → Except RunError State
  | .down => .error .transport
  | .reply status body =>
      if status = 404 then .ok defaultState
      else if !is_success status then .error (.gcsReadFailed status)
      else match parse body with
           | some st => .ok st
           | none => .error .gcsParseFailed

/-- `gcs_write_state` (lines 276–298): non-2xx or transport failure is fatal. -/
def gcs_write_state : HttpOutcome → Except RunError Unit
  | .down => .error .transport
  | .reply status _ => if !is_success status then .error (.gcsWriteFailed status) else .ok ()

/-- `post_discord` (lines 188–203). -/
def post_discord : HttpOutcome → Except RunError Unit
  | .down => .error .transport
  | .reply status _ => if !is_success status then .error (.webhookFailed status) else .ok ()

/-- `login_awbw` (lines 205–242): only transport failures are fatal; the
response body is inspected only for a warning. -/
def login_awbw (getPage postResp : HttpOutcome) : Except RunError Unit :=
  match getPage with
  | .down => .error .transport
  | .reply _ _ =>
      match postResp with
      | .down => .error .transport
      | .reply _ _ => .ok ()

/-- The state `run` starts from (lines 61–63):
`gcs_read_state(..).await.unwrap_or_default()`. -/
def loadedState (env : Env) : State :=
  (gcs_read_state env.parseState env.gcsRead).toOption.getD defaultState

/-- The session phase of `run` (lines 77–92): fetch, detect the
unauthenticated marker, log in and re-fetch if needed.  Returns the final
page body and the final `logged_in` flag. -/
def fetchSession (env : Env) : Except RunError (String × Bool) :=
  match env.fetch1 with
  | .down => .error .transport
  | .reply _ html1 =>
      if !(containsSub html1 loginMarker) then .ok (html1, true)
      else
        match env.username with
        | none => .error (.envMissing "AWBW_USERNAME")
        | some _ =>
            match env.password with
            | none => .error (.envMissing "AWBW_PASSWORD")
            | some _ =>
                match login_awbw env.loginGet env.loginPost with
                | .error e => .error e
                | .ok _ =>
                    match env.fetch2 with
                    | .down => .error .transport
                    | .reply _ html2 =>
                        if containsSub html2 loginMarker then .error .authFailed
                        else .ok (html2, true)

/-- The extracted count of the fetched page (line 98). -/
def newCount (html : String) : Nat := (extract_turn_info html).1

/-- The extracted ids of the fetched page (line 98). -/
def newIds (html : String) : List Nat := (extract_turn_info html).2

/-- The newly computed signature (line 99). -/
def newSig (html : String) : String := make_signature (newCount html) (newIds html)

/-- The updated state that `run` persists (lines 103–105). -/
def newState (html cj : String) : State := ⟨newSig html, some (newCount html), some cj⟩

/-- The rest of `run` after the state load (lines 77–125): session, extract,
compare, persist, notify. -/
def run_after_load (env : Env) (state : State) : List Event × Except RunError RunResponse :=
  match fetchSession env with
  | .error e => ([], .error e)
  | .ok (html, logged_in) =>
      match env.cookiesOut with
      | .error _ => ([], .error .cookieErr)
      | .ok cj =>
          match gcs_write_state env.gcsWrite with
          | .error e => ([.writeState (newState html cj)], .error e)
          | .ok _ =>
              if changed_of state.sig (newSig html) then
                match env.webhookUrl with
                | none => ([.writeState (newState html cj)],
                           .error (.envMissing "DISCORD_WEBHOOK_URL"))
                | some _ =>
                    match post_discord env.webhook with
                    | .error e =>
                        ([.writeState (newState html cj),
                          .notifyCall (build_discord_message (newCount html) (newIds html))],
                         .error e)
                    | .ok _ =>
                        ([.writeState (newState html cj),
                          .notifyCall (build_discord_message (newCount html) (newIds html))],
                         .ok ⟨true, changed_of state.sig (newSig html), newCount html,
                              logged_in, true⟩)
              else ([.writeState (newState html cj)],
                    .ok ⟨true, changed_of state.sig (newSig html), newCount html,
                         logged_in, false⟩)

/-- `run` (lines 57–125).  `STATE_OBJECT` only names the blob and is
behaviourally inert; `BUCKET_NAME` must be present. -/
def run (env : Env) : List Event × Except RunError RunResponse :=
  match env.bucket with
  | none => ([], .error (.envMissing "BUCKET_NAME"))
  | some _ => run_after_load env (loadedState env)

/-- An input whose two category counts are `u32::MAX` each: the extractor's
total wraps (release-mode `u32` addition) instead of being the sum. -/
def overflowHtml : String :=
  "Your Turn Games (4294967295) Your Games Waiting to Start (4294967295)"

/-- The hash input as the spec words it: the comma-separated join of the ids
when non-empty, else `"count:"` followed by the decimal count. -/
def specHashInput (count : Nat) (ids : List Nat) : String :=
  match ids with
  | [] => "count:" ++ Nat.repr count
  | i :: rest => rest.foldl (fun acc j => acc ++ "," ++ Nat.repr j) (Nat.repr i)

/-- One item link, as `build_discord_message` renders it. -/
def itemLink (id : Nat) : String :=
  "[" ++ Nat.repr id ++ "](" ++ BASE_URL ++ "game.php?games_id=" ++ Nat.repr id ++ ")"

/-- Complete characterization of the traces `run` can produce: nothing, one
write of the updated state, or one such write followed by one notification,
the latter only when the change flag is set. -/
def TraceOk (env : Env) (ev : List Event) : Prop :=
  ev = [] ∨
  (∃ html li cj, fetchSession env = .ok (html, li) ∧ env.cookiesOut = .ok cj ∧
     (ev = [Event.writeState (newState html cj)] ∨
      (ev = [Event.writeState (newState html cj),
             Event.notifyCall (build_discord_message (newCount html) (newIds html))] ∧
       changed_of (loadedState env).sig (newSig html) = true)))

/-- The SHA-256 hex of `"count:0"`, the signature of a page with no items. -/
def sigCount0 : String :=
  "a606e7e30fef05d330f070232c3dda6beb32bdb98510392647d19fc3e84264b1"

/-- Cold start, quiet page, everything healthy. -/
def envQuiet : Env :=
  { bucket := some "b", stateObject := none, username := none, password := none,
    webhookUrl := none, parseState := fun _ => none,
    gcsRead := .reply 404 "",
    fetch1 := .reply 200 "quiet page",
    loginGet := .reply 200 "", loginPost := .reply 200 "",
    fetch2 := .reply 200 "",
    cookiesOut := .ok "jar", gcsWrite := .reply 200 "",
    webhook := .reply 204 "" }

/-- Stored signature `"old"` differs from the new one: a changed run. -/
def envChanged : Env :=
  { bucket := some "b", stateObject := none, username := none, password := none,
    webhookUrl := some "w", parseState := fun _ => some ⟨"old", none, none⟩,
    gcsRead := .reply 200 "{}",
    fetch1 := .reply 200 "quiet page",
    loginGet := .reply 200 "", loginPost := .reply 200 "",
    fetch2 := .reply 200 "",
    cookiesOut := .ok "jar", gcsWrite := .reply 200 "",
    webhook := .reply 204 "" }

/-- The trace of `run envChanged`. -/
def evChanged : List Event :=
  [Event.writeState ⟨sigCount0, some 0, some "jar"⟩,
   Event.notifyCall "✅ **AWBW** → No pending turns"]

/-- Both fetches show the unauthenticated marker. -/
def envAuth : Env :=
  { bucket := some "b", stateObject := none, username := some "u", password := some "p",
    webhookUrl := none, parseState := fun _ => none,
    gcsRead := .reply 404 "",
    fetch1 := .reply 200 "please: You must be logged in",
    loginGet := .reply 200 "", loginPost := .reply 200 "",
    fetch2 := .reply 200 "still: You must be logged in",
    cookiesOut := .ok "jar", gcsWrite := .reply 200 "",
    webhook := .reply 200 "" }

/-- The state read replies 500; everything else is healthy. -/
def envReadFail : Env :=
  { bucket := some "b", stateObject := none, username := none, password := none,
    webhookUrl := none, parseState := fun _ => none,
    gcsRead := .reply 500 "oops",
    fetch1 := .reply 200 "quiet page",
    loginGet := .reply 200 "", loginPost := .reply 200 "",
    fetch2 := .reply 200 "",
    cookiesOut := .ok "jar", gcsWrite := .reply 200 "",
    webhook := .reply 200 "" }

/-! ## Theorems -/

example : sha256Hex (utf8 "abc") =
    "ba7816bf8f01cfea414140de5dae2223b00361a396177a9cb410ff61f20015ad" := by
  decide

/-! The repository's own unit tests, replayed against the embedding. -/

example :
    extract_turn_info ("<body><h1>Your Turn Games (2)</h1>" ++
      "<a href=\"game.php?games_id=123\">Game</a>" ++
      "<a href=\"game.php?games_id=456\">Game</a>" ++
      "<a href=\"game.php?games_id=123\">Duplicate</a></body>") = (2, [123, 456]) := by
  decide

example :
    extract_turn_info ("<body><h1>Your Games Waiting to Start (1)</h1><table>T</table>" ++
      "<h1>Your Turn Games (2)</h1>" ++
      "<a href=\"game.php?games_id=111\">Game</a>" ++
      "<a href=\"game.php?games_id=222\">Game</a>" ++
      "<a href=\"game.php?games_id=111\">Duplicate</a></body>") = (3, [111, 222]) := by
  decide

example : containsSub (build_discord_message 0 []) "No pending turns" = true := by decide

example : build_discord_message 1 [] =
    "🎮 **AWBW (1)** → [All](https://awbw.amarriner.com/yourgames.php?yourTurn=1)" := by
  decide

example : build_discord_message 2 [111, 222] =
    "🎮 **AWBW (2)** → [All](https://awbw.amarriner.com/yourgames.php?yourTurn=1) • " ++
    "[111](https://awbw.amarriner.com/game.php?games_id=111) • " ++
    "[222](https://awbw.amarriner.com/game.php?games_id=222)" := by
  decide

example : make_signature 1 [10, 20] ≠ make_signature 1 [10, 30] := by decide

/-! ## Lemmas about the id normalization (`sort_unstable` + `dedup`) -/

theorem mem_dedupConsec {x : Nat} : ∀ {l : List Nat}, x ∈ dedupConsec l ↔ x ∈ l
  | [] => Iff.rfl
  | [_] => Iff.rfl
  | a :: b :: rest => by
      rw [dedupConsec]
      split
      next hab =>
        subst hab
        rw [mem_dedupConsec (l := a :: rest)]
        simp
      next hab =>
        simp only [List.mem_cons]
        rw [show (x ∈ dedupConsec (b :: rest)) ↔ (x ∈ b :: rest) from
          mem_dedupConsec (l := b :: rest)]
        simp [List.mem_cons]

theorem dedupConsec_sorted : ∀ {l : List Nat}, List.Sorted (· ≤ ·) l →
    List.Sorted (· < ·) (dedupConsec l)
  | [], _ => by simp [dedupConsec]
  | [a], _ => by simp [dedupConsec]
  | a :: b :: rest, h => by
      rw [List.sorted_cons] at h
      obtain ⟨ha, hbrest⟩ := h
      rw [dedupConsec]
      split
      next hab => exact dedupConsec_sorted hbrest
      next hab =>
        rw [List.sorted_cons]
        refine ⟨?_, dedupConsec_sorted hbrest⟩
        intro x hx
        rw [mem_dedupConsec] at hx
        have hab' : a < b :=
          lt_of_le_of_ne (ha b (List.mem_cons_self b rest)) hab
        rcases List.mem_cons.mp hx with rfl | hx'
        · exact hab'
        · exact lt_of_lt_of_le hab' ((List.sorted_cons.mp hbrest).1 x hx')

/-- The extractor's id list, before normalization is applied. -/
theorem extract_ids_eq (html : String) :
    (extract_turn_info html).2 =
      dedupConsec (List.insertionSort (· ≤ ·) (collectIds html.data)) := rfl

theorem extract_count_eq (html : String) :
    (extract_turn_info html).1 =
      ((regex_capture_u32 litYourTurn html.data).getD 0 +
       (regex_capture_u32 litWaiting html.data).getD 0) % w32 := rfl

/-- C6 core: normalization output is strictly sorted. -/
theorem normalized_sorted (l : List Nat) :
    List.Sorted (· < ·) (dedupConsec (List.insertionSort (· ≤ ·) l)) :=
  dedupConsec_sorted (List.sorted_insertionSort _ l)

/-- C6: for every input string the extracted id list is sorted ascending and
duplicate-free, regardless of the order or multiplicity of matching links. -/
theorem extract_ids_sorted_nodup (html : String) :
    List.Sorted (· < ·) (extract_turn_info html).2 ∧
    (extract_turn_info html).2.Nodup := by
  rw [extract_ids_eq]
  exact ⟨normalized_sorted _, (normalized_sorted _).nodup⟩

/-- C1: the change decision is exactly `stored ≠ "" ∧ stored ≠ new`; in
particular an empty stored signature (cold start) never reports a change. -/
theorem changed_decision (stored newSig : String) :
    (changed_of stored newSig = true ↔ stored ≠ "" ∧ stored ≠ newSig) ∧
    changed_of "" newSig = false := by
  refine ⟨?_, rfl⟩
  by_cases h1 : stored = ""
  · subst h1
    rw [show changed_of "" newSig = false from rfl]
    simp
  · by_cases h2 : stored = newSig
    · subst h2; simp [changed_of]
    · have hE : stored.isEmpty = false := by
        cases hb : stored.isEmpty
        · rfl
        · exact absurd ((String.isEmpty_iff stored).mp hb) h1
      simp [changed_of, hE, h1, h2]

/-! ## C5: totality and degrade-to-zero of the extractor -/

theorem collectIdsFuel_nil : ∀ (n : Nat) (s : List Char),
    (∀ i, matchGameIdAt (s.drop i) = none) → collectIdsFuel n s = []
  | 0, _, _ => rfl
  | _ + 1, [], _ => rfl
  | n + 1, c :: rest, h => by
      have h0 : matchGameIdAt (c :: rest) = none := h 0
      rw [collectIdsFuel, h0]
      exact collectIdsFuel_nil n rest (fun i => h (i + 1))

theorem collectIds_nil (s : List Char)
    (h : ∀ i, matchGameIdAt (s.drop i) = none) : collectIds s = [] :=
  collectIdsFuel_nil _ s h

/-- C5 counterexample: both category captures are 4294967295, but the
extracted total is the wrapped `u32` sum 4294967294, not the sum. -/
theorem extract_count_wraps :
    regex_capture_u32 litYourTurn overflowHtml.data = some 4294967295 ∧
    regex_capture_u32 litWaiting overflowHtml.data = some 4294967295 ∧
    (extract_turn_info overflowHtml).1 = 4294967294 ∧
    (extract_turn_info overflowHtml).1 ≠ 4294967295 + 4294967295 :=
  ⟨by decide, by decide, by decide, by decide⟩

/-- C5 (amended): the extractor is total; an absent label contributes 0 and
an absent pair of labels gives count 0; the total is the `u32` (mod `2^32`)
sum of the two category counts; absence of the item-link pattern at every
position yields the empty id list. -/
theorem extract_total_amended (html : String) :
    (extract_turn_info html).1 =
      ((regex_capture_u32 litYourTurn html.data).getD 0 +
       (regex_capture_u32 litWaiting html.data).getD 0) % w32 ∧
    (regex_capture_u32 litYourTurn html.data = none ∧
     regex_capture_u32 litWaiting html.data = none →
       (extract_turn_info html).1 = 0) ∧
    ((∀ i < html.data.length, matchGameIdAt (html.data.drop i) = none) →
       (extract_turn_info html).2 = []) := by
  refine ⟨rfl, ?_, ?_⟩
  · rintro ⟨h1, h2⟩
    rw [extract_count_eq, h1, h2]
    decide
  · intro h
    have h' : ∀ i, matchGameIdAt (html.data.drop i) = none := by
      intro i
      by_cases hi : i < html.data.length
      · exact h i hi
      · rw [List.drop_eq_nil_of_le (Nat.le_of_not_lt hi)]
        rfl
    rw [extract_ids_eq, collectIds_nil html.data h']
    rfl

theorem extract_total_amended_witness :
    (extract_turn_info "hello").1 = 0 ∧ (extract_turn_info "hello").2 = [] :=
  ⟨(extract_total_amended "hello").2.1 ⟨by decide, by decide⟩,
   (extract_total_amended "hello").2.2 (by decide)⟩

/-- C8 counterexample: `[10, 20]` and `[20, 10]` are permutations of the
same id set, but `make_signature` distinguishes them. -/
theorem make_signature_not_perm_invariant :
    List.Perm [10, 20] [20, 10] ∧
    make_signature 1 [10, 20] ≠ make_signature 1 [20, 10] :=
  ⟨by decide, by decide⟩

/-- C8 (amended): after the extractor's normalization (sort + dedup), the
signature depends only on the set of ids: two id lists with the same
members — any order, any duplication — give the same signature. -/
theorem signature_invariant_after_normalization (count : Nat) (l1 l2 : List Nat)
    (h : ∀ x : Nat, x ∈ l1 ↔ x ∈ l2) :
    make_signature count (dedupConsec (List.insertionSort (· ≤ ·) l1)) =
    make_signature count (dedupConsec (List.insertionSort (· ≤ ·) l2)) := by
  have s1 := normalized_sorted l1
  have s2 := normalized_sorted l2
  have mem : ∀ x, x ∈ dedupConsec (List.insertionSort (· ≤ ·) l1) ↔
                  x ∈ dedupConsec (List.insertionSort (· ≤ ·) l2) := by
    intro x
    rw [mem_dedupConsec, mem_dedupConsec,
        (List.perm_insertionSort _ l1).mem_iff, (List.perm_insertionSort _ l2).mem_iff]
    exact h x
  have p := (List.perm_ext_iff_of_nodup s1.nodup s2.nodup).mpr mem
  rw [List.eq_of_perm_of_sorted p (s1.imp le_of_lt) (s2.imp le_of_lt)]

theorem signature_invariant_witness :
    make_signature 7 (dedupConsec (List.insertionSort (· ≤ ·) [2, 1, 1])) =
    make_signature 7 (dedupConsec (List.insertionSort (· ≤ ·) [1, 2])) :=
  signature_invariant_after_normalization 7 [2, 1, 1] [1, 2]
    (by intro x; simp [List.mem_cons]; tauto)

/-! ## C4: the signature is the lowercase-hex SHA-256 of the spec's input -/

theorem intercalate_go_eq (sep : String) : ∀ (l : List String) (acc : String),
    String.intercalate.go acc sep l = l.foldl (fun r a => r ++ sep ++ a) acc
  | [], _ => rfl
  | a :: as, acc => intercalate_go_eq sep as (acc ++ sep ++ a)

theorem hexDigitChar_mem (n : Nat) : hexDigitChar n ∈ ("0123456789abcdef").data := by
  unfold hexDigitChar
  split <;> decide

theorem mem_wordHex {c : Char} {x : Nat} (h : c ∈ wordHex x) :
    ∃ n, c = hexDigitChar n := by
  simp only [wordHex, List.mem_cons, List.not_mem_nil, or_false] at h
  rcases h with h | h | h | h | h | h | h | h <;> exact ⟨_, h⟩

theorem sha256Hex_length (msg : List Nat) : (sha256Hex msg).length = 64 := by
  simp [sha256Hex, wordHex, String.length]

theorem sha256Hex_chars (msg : List Nat) :
    ∀ c ∈ (sha256Hex msg).data, c ∈ ("0123456789abcdef").data := by
  intro c hc
  simp only [sha256Hex, List.mem_append] at hc
  have : ∃ n, c = hexDigitChar n := by
    rcases hc with ((((((h | h) | h) | h) | h) | h) | h) | h <;> exact mem_wordHex h
  obtain ⟨n, rfl⟩ := this
  exact hexDigitChar_mem n

/-- C4: for every count and id list, the signature is the lowercase hex
encoding of the SHA-256 hash of the comma-separated join of the ids when
non-empty, and of `"count:" ++ count` when empty; it is 64 lowercase hex
characters. -/
theorem make_signature_spec (count : Nat) (ids : List Nat) :
    make_signature count ids = sha256Hex (utf8 (specHashInput count ids)) ∧
    (make_signature count ids).length = 64 ∧
    (∀ c ∈ (make_signature count ids).data, c ∈ ("0123456789abcdef").data) := by
  have hsrc : (if !ids.isEmpty then String.intercalate "," (ids.map Nat.repr)
               else "count:" ++ Nat.repr count) = specHashInput count ids := by
    cases ids with
    | nil => rfl
    | cons i rest =>
        show String.intercalate "," (Nat.repr i :: rest.map Nat.repr) = _
        have h1 : String.intercalate "," (Nat.repr i :: rest.map Nat.repr) =
            (rest.map Nat.repr).foldl (fun r a => r ++ "," ++ a) (Nat.repr i) :=
          intercalate_go_eq "," (rest.map Nat.repr) (Nat.repr i)
        rw [h1, List.foldl_map]
        rfl
  have hm : make_signature count ids = sha256Hex (utf8 (specHashInput count ids)) := by
    rw [make_signature, hsrc]
  exact ⟨hm, by rw [hm]; exact sha256Hex_length _, by rw [hm]; exact sha256Hex_chars _⟩

theorem make_signature_spec_witness :
    make_signature 3 [] = sha256Hex (utf8 (specHashInput 3 [])) ∧
    (make_signature 3 [7, 9]).length = 64 :=
  ⟨(make_signature_spec 3 []).1, (make_signature_spec 3 [7, 9]).2.1⟩

theorem itemLink_length_pos (n : Nat) : (itemLink n).length ≠ 0 := by
  simp only [itemLink, String.length_append]
  have h1 : ("[" : String).length = 1 := rfl
  omega

theorem foldl_append_length_le (sep : String) :
    ∀ (l : List String) (acc : String),
      acc.length ≤ (l.foldl (fun r x => r ++ sep ++ x) acc).length
  | [], _ => le_rfl
  | x :: xs, acc => by
      have h := foldl_append_length_le sep xs (acc ++ sep ++ x)
      simp only [String.length_append] at h ⊢
      calc acc.length ≤ acc.length + sep.length + x.length := by omega
        _ ≤ _ := by
            simpa [List.foldl_cons, String.length_append] using h

theorem intercalate_isEmpty_false (sep a : String) (l : List String)
    (ha : a.length ≠ 0) : (String.intercalate sep (a :: l)).isEmpty = false := by
  have h1 : String.intercalate sep (a :: l) = l.foldl (fun r x => r ++ sep ++ x) a :=
    intercalate_go_eq sep l a
  have h2 := foldl_append_length_le sep l a
  cases hb : (String.intercalate sep (a :: l)).isEmpty
  · rfl
  · have := (String.isEmpty_iff _).mp hb
    rw [this] at h1
    have h3 : (("" : String)).length = 0 := rfl
    rw [← h1] at h2
    omega

/-- C7: the message is a pure function of `(count, ids)`: the fixed
"no pending" text (with no item link) when `count = 0` and `ids = []`;
otherwise a count header with the aggregate link, then the first at most 5
item links joined by `" • "`, then `" • +K more"` exactly when more than 5
ids exist (`K` = the number beyond 5). -/
theorem build_message_spec (count : Nat) (ids : List Nat) :
    (count = 0 ∧ ids = [] →
       build_discord_message count ids = "✅ **AWBW** → No pending turns" ∧
       containsSub (build_discord_message count ids) "game.php?games_id=" = false) ∧
    (¬(count = 0 ∧ ids = []) →
       build_discord_message count ids =
         "🎮 **AWBW (" ++ Nat.repr count ++ ")** → [All](" ++ AWBW_URL ++ ")" ++
         (if ids.isEmpty then ""
          else " • " ++ String.intercalate " • " ((ids.take 5).map itemLink)) ++
         (if 5 < ids.length then " • +" ++ Nat.repr (ids.length - 5) ++ " more"
          else "")) := by
  constructor
  · rintro ⟨rfl, rfl⟩
    exact ⟨rfl, by decide⟩
  · intro h
    have hcond : (decide (count = 0) && decide (ids.length = 0)) = false := by
      cases ids with
      | nil =>
          cases Nat.eq_zero_or_pos count with
          | inl hc => exact absurd ⟨hc, rfl⟩ h
          | inr hc => simp [Nat.pos_iff_ne_zero.mp hc]
      | cons i rest => simp
    cases ids with
    | nil =>
        have hc0 : count ≠ 0 := fun hc => h ⟨hc, rfl⟩
        have he : ("" : String).isEmpty = true := rfl
        simp [build_discord_message, hc0, he, String.intercalate]
    | cons i rest =>
        have hmap : ∀ l : List Nat, l.map (fun id =>
            "[" ++ Nat.repr id ++ "](" ++ BASE_URL ++ "game.php?games_id=" ++
              Nat.repr id ++ ")") = l.map itemLink := fun _ => rfl
        have hne : (String.intercalate " • "
            ((List.take 5 (i :: rest)).map itemLink)).isEmpty = false := by
          simp only [List.take_succ_cons, List.map_cons]
          exact intercalate_isEmpty_false _ _ _ (itemLink_length_pos i)
        simp only [build_discord_message, hmap, hcond, Bool.false_eq_true, if_false,
          List.isEmpty_cons, hne, Bool.not_false, if_true, gt_iff_lt]
        by_cases h5 : 5 < (i :: rest).length
        · rw [if_pos h5, if_pos h5]
          simp only [String.append_assoc]
        · rw [if_neg h5, if_neg h5]
          simp only [String.append_assoc, String.append_empty]

theorem build_message_spec_witness :
    build_discord_message 0 [] = "✅ **AWBW** → No pending turns" ∧
    build_discord_message 6 [1, 2, 3, 4, 5, 6] =
      "🎮 **AWBW (" ++ Nat.repr 6 ++ ")** → [All](" ++ AWBW_URL ++ ")" ++
      (if ([1, 2, 3, 4, 5, 6] : List Nat).isEmpty then ""
       else " • " ++ String.intercalate " • "
         ((([1, 2, 3, 4, 5, 6] : List Nat).take 5).map itemLink)) ++
      (if 5 < ([1, 2, 3, 4, 5, 6] : List Nat).length then
         " • +" ++ Nat.repr (([1, 2, 3, 4, 5, 6] : List Nat).length - 5) ++ " more"
       else "") :=
  ⟨((build_message_spec 0 []).1 ⟨rfl, rfl⟩).1,
   (build_message_spec 6 [1, 2, 3, 4, 5, 6]).2 (by decide)⟩

example : build_discord_message 6 [6, 5, 4, 3, 2, 1] =
    "🎮 **AWBW (6)** → [All](https://awbw.amarriner.com/yourgames.php?yourTurn=1) • " ++
    "[6](https://awbw.amarriner.com/game.php?games_id=6) • " ++
    "[5](https://awbw.amarriner.com/game.php?games_id=5) • " ++
    "[4](https://awbw.amarriner.com/game.php?games_id=4) • " ++
    "[3](https://awbw.amarriner.com/game.php?games_id=3) • " ++
    "[2](https://awbw.amarriner.com/game.php?games_id=2) • +1 more" := by
  decide

theorem run_trace_ok (env : Env) (ev : List Event)
    (res : Except RunError RunResponse) (h : run env = (ev, res)) :
    TraceOk env ev := by
  unfold run run_after_load at h
  repeat' split at h
  all_goals rw [Prod.mk.injEq] at h
  all_goals obtain ⟨h1, h2⟩ := h
  all_goals subst h1
  all_goals try exact Or.inl rfl
  all_goals try exact Or.inr ⟨_, _, _, by assumption, by assumption, Or.inl rfl⟩
  all_goals exact Or.inr ⟨_, _, _, by assumption, by assumption, Or.inr ⟨rfl, by assumption⟩⟩

theorem traceOk_props {env : Env} {ev : List Event} (h : TraceOk env ev) :
    (ev.filter Event.isWrite).length ≤ 1 ∧
    (∀ l1 m l2, ev = l1 ++ Event.notifyCall m :: l2 →
       ∃ st, Event.writeState st ∈ l1) ∧
    (∀ m, Event.notifyCall m ∈ ev → ∃ st, Event.writeState st ∈ ev ∧
       changed_of (loadedState env).sig st.sig = true) ∧
    (∀ st, Event.writeState st ∈ ev →
       ∃ html li cj, fetchSession env = .ok (html, li) ∧ st = newState html cj) := by
  rcases h with rfl | ⟨html, li, cj, hfs, _, rfl | ⟨rfl, hch⟩⟩
  · refine ⟨by simp, ?_, by simp, by simp⟩
    intro l1 m l2 h
    exact absurd h.symm (by simp)
  · refine ⟨by simp [Event.isWrite], ?_, by simp, ?_⟩
    · intro l1 m l2 h
      match l1 with
      | [] => simp at h
      | x :: t =>
          rw [List.cons_append] at h
          injection h with _ ht
          exact absurd ht.symm (by simp)
    · intro st hst
      rw [List.mem_singleton] at hst
      injection hst with hst
      exact ⟨html, li, cj, hfs, hst⟩
  · refine ⟨by simp [Event.isWrite], ?_, ?_, ?_⟩
    · intro l1 m l2 h
      match l1 with
      | [] =>
          rw [List.nil_append] at h
          injection h with hx _
          exact Event.noConfusion hx
      | [x] =>
          rw [List.cons_append, List.nil_append] at h
          injection h with hx _
          subst hx
          exact ⟨newState html cj, List.mem_singleton_self _⟩
      | x :: y :: t =>
          rw [List.cons_append, List.cons_append] at h
          injection h with _ h'
          injection h' with _ h''
          exact absurd h''.symm (by simp)
    · intro m _
      refine ⟨newState html cj, List.mem_cons_self _ _, ?_⟩
      simpa [newState, newSig] using hch
    · intro st hst
      rcases List.mem_cons.mp hst with hst | hst
      · injection hst with hst
        exact ⟨html, li, cj, hfs, hst⟩
      · rw [List.mem_singleton] at hst
        exact Event.noConfusion hst

/-- C2: in every run, any notification attempt is preceded by the (single)
durable-store write of the updated state — the state write happens at most
once per run and before any notification — the notifier is invoked only when
the change flag computed from the loaded state is true, and everything
written is the updated state derived from the fetched page. -/
theorem persist_before_notify (env : Env) (ev : List Event)
    (res : Except RunError RunResponse) (h : run env = (ev, res)) :
    (ev.filter Event.isWrite).length ≤ 1 ∧
    (∀ l1 m l2, ev = l1 ++ Event.notifyCall m :: l2 →
       ∃ st, Event.writeState st ∈ l1) ∧
    (∀ m, Event.notifyCall m ∈ ev → ∃ st, Event.writeState st ∈ ev ∧
       changed_of (loadedState env).sig st.sig = true) ∧
    (∀ st, Event.writeState st ∈ ev →
       ∃ html li cj, fetchSession env = .ok (html, li) ∧ st = newState html cj) :=
  traceOk_props (run_trace_ok env ev res h)

/-- C9: when a login has been attempted and the re-fetched page still shows
the unauthenticated marker, the run aborts with the authentication failure:
no state write and no notification appear in its trace. -/
theorem auth_failure_aborts (env : Env) (b u p h1 bg bp h2 : String)
    (s1 sg sp s2 : Nat)
    (hb : env.bucket = some b)
    (hf1 : env.fetch1 = .reply s1 h1)
    (hm1 : containsSub h1 loginMarker = true)
    (hu : env.username = some u) (hp : env.password = some p)
    (hlg : env.loginGet = .reply sg bg) (hlp : env.loginPost = .reply sp bp)
    (hf2 : env.fetch2 = .reply s2 h2)
    (hm2 : containsSub h2 loginMarker = true) :
    run env = ([], .error .authFailed) := by
  have hfs : fetchSession env = .error .authFailed := by
    unfold fetchSession login_awbw
    simp [hf1, hm1, hu, hp, hlg, hlp, hf2, hm2]
  unfold run run_after_load
  rw [hb, hfs]

/-- C10: every successfully completed run reports `ok = true` and
`posted = changed`: a result with `changed = true` and `posted = false` is
never returned. -/
theorem run_ok_invariant (env : Env) (ev : List Event) (r : RunResponse)
    (h : run env = (ev, .ok r)) : r.ok = true ∧ r.posted = r.changed := by
  unfold run run_after_load at h
  repeat' split at h
  all_goals rw [Prod.mk.injEq] at h
  all_goals obtain ⟨h1, h2⟩ := h
  all_goals first
    | exact Except.noConfusion h2
    | (injection h2 with h3; subst h3; exact ⟨rfl, by simp_all⟩)

example : make_signature 0 [] = sigCount0 := by decide

theorem persist_before_notify_witness :
    (evChanged.filter Event.isWrite).length ≤ 1 ∧
    (∀ m, Event.notifyCall m ∈ evChanged → ∃ st, Event.writeState st ∈ evChanged ∧
        changed_of (loadedState envChanged).sig st.sig = true) :=
  ⟨(persist_before_notify envChanged evChanged (.ok ⟨true, true, 0, true, true⟩)
      (by decide)).1,
   (persist_before_notify envChanged evChanged (.ok ⟨true, true, 0, true, true⟩)
      (by decide)).2.2.1⟩

theorem auth_failure_aborts_witness : run envAuth = ([], .error .authFailed) :=
  auth_failure_aborts envAuth "b" "u" "p"
    "please: You must be logged in" "" "" "still: You must be logged in"
    200 200 200 200 rfl rfl (by decide) rfl rfl rfl rfl rfl (by decide)

theorem run_ok_invariant_witness :
    (⟨true, false, 0, true, false⟩ : RunResponse).ok = true ∧
    (⟨true, false, 0, true, false⟩ : RunResponse).posted =
      (⟨true, false, 0, true, false⟩ : RunResponse).changed :=
  run_ok_invariant envQuiet [Event.writeState ⟨sigCount0, some 0, some "jar"⟩]
    ⟨true, false, 0, true, false⟩ (by decide)

/-- C3 counterexample: a 500 on the state read makes `gcs_read_state` fail,
yet the run does not abort — it completes successfully on the default state
(`unwrap_or_default` at lines 61–63 swallows the error). -/
theorem read_failure_not_fatal :
    gcs_read_state envReadFail.parseState envReadFail.gcsRead =
      .error (.gcsReadFailed 500) ∧
    (run envReadFail).2 = .ok ⟨true, false, 0, true, false⟩ :=
  ⟨by decide, by decide⟩

/-- C3 (amended): `gcs_read_state` itself distinguishes "not found" (default
state) from transport failures, non-2xx statuses and unparsable bodies
(errors), but `run` swallows every read failure via `unwrap_or_default`, so
a failed read leaves the run behaving exactly as a 404 cold start instead of
aborting. -/
theorem read_failure_amended :
    (∀ parse body, gcs_read_state parse (.reply 404 body) = .ok defaultState) ∧
    (∀ parse status body, is_success status = false → status ≠ 404 →
        gcs_read_state parse (.reply status body) = .error (.gcsReadFailed status)) ∧
    (∀ parse, gcs_read_state parse .down = .error .transport) ∧
    (∀ parse status body, is_success status = true → status ≠ 404 →
        parse body = none →
        gcs_read_state parse (.reply status body) = .error .gcsParseFailed) ∧
    (∀ (env : Env) (e : RunError),
        gcs_read_state env.parseState env.gcsRead = .error e →
        run env = run {env with gcsRead := .reply 404 ""}) := by
  refine ⟨fun parse body => by simp [gcs_read_state], ?_, fun parse => rfl, ?_, ?_⟩
  · intro parse status body hs h404
    simp [gcs_read_state, h404, hs]
  · intro parse status body hs h404 hp
    simp [gcs_read_state, h404, hs, hp]
  · intro env e he
    have hl : loadedState env = defaultState := by
      unfold loadedState
      rw [he]
      rfl
    have hl' : loadedState {env with gcsRead := .reply 404 ""} = defaultState := rfl
    unfold run
    dsimp only
    rw [hl, hl']
    cases env.bucket <;> rfl

theorem read_failure_amended_witness :
    gcs_read_state (fun _ => none) (.reply 500 "x") = .error (.gcsReadFailed 500) ∧
    run envReadFail = run {envReadFail with gcsRead := .reply 404 ""} :=
  ⟨read_failure_amended.2.1 (fun _ => none) 500 "x" (by decide) (by decide),
   read_failure_amended.2.2.2.2 envReadFail (.gcsReadFailed 500) (by decide)⟩

end AWBW
